import Mathlib

/-!
Shallow embedding of the jarvis-v2 realtime voice client.

The embedding follows `src/components/microphone.py`, `src/components/events.py`,
`src/components/tools.py` and `src/components/client.py`.  Python byte strings are
modelled as `List Nat`, JSON event records as a structure of optional fields,
and the event handlers of `RealtimeAPI` as state transformers that may fail
(`Except String`) to model a Python exception escaping the handler.  External
library calls (base64 decoding, JSON parsing, the wall clock, and the bodies of
the tool functions, which depend on the system clock and a random generator)
are threaded through an explicit record of external functions `Ext`.
-/

namespace Jarvis

/-- A single-quote character, used when building the error-message strings of
`execute_function_call` (Python interpolates the function name between quotes). -/
def sq : String := String.singleton (Char.ofNat 39)

-- Event-type tags received from the server, from `events.py` (`ServerEvents`).
namespace ServerEvents

def RESPONSE_CREATED : String := "response.created"

def RESPONSE_DONE : String := "response.done"

def RESPONSE_TEXT_DELTA : String := "response.text.delta"

def RESPONSE_AUDIO_DELTA : String := "response.audio.delta"

def RESPONSE_OUTPUT_ITEM_ADDED : String := "response.output_item.added"

def RESPONSE_FUNCTION_CALL_ARGUMENTS_DELTA : String := "response.function_call_arguments.delta"

def RESPONSE_FUNCTION_CALL_ARGUMENTS_DONE : String := "response.function_call_arguments.done"

def INPUT_AUDIO_BUFFER_SPEECH_STARTED : String := "input_audio_buffer.speech_started"

def INPUT_AUDIO_BUFFER_SPEECH_STOPPED : String := "input_audio_buffer.speech_stopped"

def RATE_LIMITS_UPDATED : String := "rate_limits.updated"

def ERROR : String := "error"

end ServerEvents

/-- Substring test, modelling the Python `needle in hay` operator on strings. -/
def strContains (hay needle : String) : Bool :=
  decide (needle.toList <:+: hay.toList)

/-- State of `AMicrophone` (`microphone.py`): the internal frame queue and the two
gate flags.  The pyaudio stream handle itself carries no modelled state. -/
structure MicState where
  queue : List (List Nat)
  is_recording : Bool
  is_receiving : Bool
deriving DecidableEq, Repr

/-- `AMicrophone._callback`: appends the incoming frame to the queue only when
recording and not receiving; otherwise the frame is dropped. -/
def callback (in_data : List Nat) (m : MicState) : MicState :=
  if m.is_recording && !m.is_receiving then {m with queue := m.queue ++ [in_data]} else m

/-- `AMicrophone.start_recording`. -/
def start_recording (m : MicState) : MicState := {m with is_recording := true}

/-- `AMicrophone.stop_recording`. -/
def stop_recording (m : MicState) : MicState := {m with is_recording := false}

/-- `AMicrophone.start_receiving`: enables receiving mode and suspends recording. -/
def start_receiving (m : MicState) : MicState :=
  {m with is_receiving := true, is_recording := false}

/-- `AMicrophone.stop_receiving`. -/
def stop_receiving (m : MicState) : MicState := {m with is_receiving := false}

/-- `AMicrophone.get_audio_data`: drains the queue, returning the concatenation of
the queued frames, or `none` (Python `None`) when no data was queued. -/
def get_audio_data (m : MicState) : Option (List Nat) × MicState :=
  let data := m.queue.flatten
  (if data = [] then none else some data, {m with queue := []})

/-- One interaction with the microphone, for reasoning about interleavings of the
device callback, the drain path and the gate setters. -/
inductive MicOp where
  | push (frame : List Nat)
  | drain
  | startRec
  | stopRec
  | startRecv
  | stopRecv
deriving DecidableEq, Repr

/-- Step of a microphone trace: the state together with the list of results the
drain path has returned so far. -/
def micStep : MicState × List (Option (List Nat)) → MicOp → MicState × List (Option (List Nat))
  | (m, outs), MicOp.push f => (callback f m, outs)
  | (m, outs), MicOp.drain =>
      let r := get_audio_data m
      (r.2, outs ++ [r.1])
  | (m, outs), MicOp.startRec => (start_recording m, outs)
  | (m, outs), MicOp.stopRec => (stop_recording m, outs)
  | (m, outs), MicOp.startRecv => (start_receiving m, outs)
  | (m, outs), MicOp.stopRecv => (stop_receiving m, outs)

/-- Run a microphone trace from a given state, collecting every drain result. -/
def runMicOps (m : MicState) (ops : List MicOp) : MicState × List (Option (List Nat)) :=
  ops.foldl micStep (m, [])

/-- Microphone state right after `start_recording` with an empty queue. -/
def captureMic : MicState := {queue := [], is_recording := true, is_receiving := false}

/-- The `item` record of an inbound event: a JSON object whose fields are optional.
`itemType` models the `"type"` key.  An absent `item` key behaves as the empty
dict, whose `get` calls all return `None` (`Item.empty`). -/
structure Item where
  itemType : Option String
  name : Option String
  call_id : Option String
deriving DecidableEq, Repr

/-- The empty Python dict, as an `Item`: every `get` returns `None`. -/
def Item.empty : Item := ⟨none, none, none⟩

/-- The `error` record of an inbound `error` event; `message` may be absent. -/
structure ErrorInfo where
  message : Option String
deriving DecidableEq, Repr

/-- An inbound JSON event: the `type` discriminator plus the payload keys the
handlers read, each optional to model a missing key. -/
structure Event where
  type : String
  delta : Option String
  item : Option Item
  error : Option ErrorInfo
deriving DecidableEq, Repr

/-- An event carrying only a `type` discriminator (all payload keys absent). -/
def mkTypeEvent (t : String) : Event := {type := t, delta := none, item := none, error := none}

/-- A decoded JSON argument record (Python dict of keyword arguments). -/
def Args : Type := List (String × String)

instance : DecidableEq Args := by unfold Args; infer_instance

/-- A Python value produced by a tool function or by the executor itself:
either the structured error dict `\x7b"error": msg\x7d`, or any other JSON value
represented by its serialized form. -/
inductive PyValue where
  | errDict (msg : String)
  | json (s : String)
deriving DecidableEq, Repr

/-- An outbound wire event sent on the websocket by the client
(`events.py`, `ClientEvents`, as used in `client.py`). -/
inductive OutEvent where
  | sessionUpdate
  | itemCreateMessage (role : String) (text : String)
  | itemCreateFunctionOutput (call_id : Option String) (output : PyValue)
  | responseCreate
  | inputAudioBufferCommit
  | inputAudioBufferAppend (audio : List Nat)
deriving DecidableEq, Repr

/-- External collaborators of the protocol loop: `base64.b64decode`, `json.loads`
(returning `none` on a `JSONDecodeError`), the behaviour of the tool functions in
`function_map` (whose results depend on the clock and the random generator, and
which raise by returning `Except.error`), and `time.perf_counter`. -/
structure Ext where
  b64decode : String → List Nat
  parseArgs : String → Option Args
  call : String → Args → Except String PyValue
  now : Nat

/-- State of a `RealtimeAPI` instance (`client.py`, `__init__`) together with the
microphone it owns. -/
structure ClientState where
  mic : MicState
  assistant_reply : String
  audio_chunks : List (List Nat)
  response_in_progress : Bool
  function_call : Option Item
  function_call_args : String
  response_start_time : Option Nat
deriving DecidableEq, Repr

/-- The state built by `RealtimeAPI.__init__`. -/
def initClientState : ClientState :=
  { mic := {queue := [], is_recording := false, is_receiving := false},
    assistant_reply := "", audio_chunks := [], response_in_progress := false,
    function_call := none, function_call_args := "", response_start_time := none }

/-- The names bound in `function_map` (`tools.py`). -/
def function_map_names : List String := ["get_current_time", "get_random_number"]

/-- The not-found message: `Function ` then the quoted name then ` not found.` -/
def notFoundMsg (n : String) : String :=
  "Function " ++ sq ++ n ++ sq ++ " not found."

/-- The invocation-failure message: `Error executing function ` then the quoted
name then a colon and the failure description. -/
def execErrorMsg (n e : String) : String :=
  "Error executing function " ++ sq ++ n ++ sq ++ ": " ++ e

/-- `RealtimeAPI.execute_function_call`: looks the name up in `function_map`
(a `None` name is never in the map); on a missing name or a raising invocation it
builds the structured error result and sends an assistant-authored error message
item; it then always sends the `function_call_output` conversation item followed
by a `response.create` event, and clears the pending function-call state.
Returns the new state and the outbound events in send order. -/
def execute_function_call (ext : Ext) (function_name : Option String)
    (call_id : Option String) (args : Args) (s : ClientState) :
    ClientState × List OutEvent :=
  let rp : PyValue × List OutEvent :=
    match function_name with
    | some n =>
      if function_map_names.contains n then
        match ext.call n args with
        | Except.ok v => (v, [])
        | Except.error e =>
          let em := execErrorMsg n e
          (PyValue.errDict em, [OutEvent.itemCreateMessage "assistant" em])
      else
        let em := notFoundMsg n
        (PyValue.errDict em, [OutEvent.itemCreateMessage "assistant" em])
    | none =>
      let em := notFoundMsg "None"
      (PyValue.errDict em, [OutEvent.itemCreateMessage "assistant" em])
  ({s with function_call := none, function_call_args := ""},
   rp.2 ++ [OutEvent.itemCreateFunctionOutput call_id rp.1, OutEvent.responseCreate])

/-- The result of one handler invocation: the new state and the outbound events
it sent, or the description of the Python exception it raised. -/
def HResult : Type := Except String (ClientState × List OutEvent)

deriving instance DecidableEq for Except

instance : DecidableEq HResult := by unfold HResult; infer_instance

/-- `handle_response_created`: suspend capture, mark a response in progress. -/
def handle_response_created (ext : Ext) (e : Event) (s : ClientState) : HResult :=
  Except.ok ({s with mic := start_receiving s.mic, response_in_progress := true}, [])

/-- `handle_output_item_added`: when the item is a function call, store it as the
pending call and reset the argument accumulator. -/
def handle_output_item_added (ext : Ext) (e : Event) (s : ClientState) : HResult :=
  let item := e.item.getD Item.empty
  if item.itemType = some "function_call" then
    Except.ok ({s with function_call := some item, function_call_args := ""}, [])
  else
    Except.ok (s, [])

/-- `handle_function_call_arguments_delta`: append the delta (empty default) to
the argument accumulator. -/
def handle_function_call_arguments_delta (ext : Ext) (e : Event) (s : ClientState) : HResult :=
  Except.ok ({s with function_call_args := s.function_call_args ++ e.delta.getD ""}, [])

/-- The argument-parsing step of `handle_function_call_arguments_done`:
`json.loads` of the accumulated text, with the empty record both for empty text
(the accumulator is falsy) and on a `JSONDecodeError`. -/
def parsedArgs (ext : Ext) (raw : String) : Args :=
  if raw = "" then [] else (ext.parseArgs raw).getD []

/-- `handle_function_call_arguments_done`: when a pending function call is live
(the field is `None` otherwise: handlers only ever store an item carrying a
`"type"` key, so Python dict truthiness coincides with non-`None` here), parse
the accumulated arguments and run `execute_function_call`; otherwise do nothing. -/
def handle_function_call_arguments_done (ext : Ext) (e : Event) (s : ClientState) : HResult :=
  match s.function_call with
  | some fc =>
      Except.ok (execute_function_call ext fc.name fc.call_id
        (parsedArgs ext s.function_call_args) s)
  | none => Except.ok (s, [])

/-- `handle_response_text_delta`: append the delta (empty default) to the
assistant reply. -/
def handle_response_text_delta (ext : Ext) (e : Event) (s : ClientState) : HResult :=
  Except.ok ({s with assistant_reply := s.assistant_reply ++ e.delta.getD ""}, [])

/-- `handle_response_audio_delta`: indexes `event["delta"]` directly, so a missing
key raises a `KeyError`; otherwise append the base64-decoded bytes. -/
def handle_response_audio_delta (ext : Ext) (e : Event) (s : ClientState) : HResult :=
  match e.delta with
  | none => Except.error "KeyError: delta"
  | some d => Except.ok ({s with audio_chunks := s.audio_chunks ++ [ext.b64decode d]}, [])

/-- `handle_response_done`: report the elapsed duration when a start timestamp was
recorded and clear it, play the concatenated audio when any was accumulated
(playback is an external device effect), reset the reply and chunk accumulators,
and leave receiving mode. -/
def handle_response_done (ext : Ext) (e : Event) (s : ClientState) : HResult :=
  Except.ok ({s with response_start_time := none, assistant_reply := "",
                     audio_chunks := [], mic := stop_receiving s.mic}, [])

/-- The message extraction of `handle_error`:
`event.get("error", \x7b\x7d).get("message", "")`. -/
def errorEventMessage (e : Event) : String :=
  (e.error.getD {message := none}).message.getD ""

/-- `handle_error`: inspect the error message; a message containing
`buffer is empty` is logged only; otherwise a message containing the
active-response conflict sets `response_in_progress`; any other message is
logged as unhandled. -/
def handle_error (ext : Ext) (e : Event) (s : ClientState) : HResult :=
  let msg := errorEventMessage e
  if strContains msg "buffer is empty" then
    Except.ok (s, [])
  else if strContains msg "Conversation already has an active response" then
    Except.ok ({s with response_in_progress := true}, [])
  else
    Except.ok (s, [])

/-- `handle_speech_started`: diagnostic only. -/
def handle_speech_started (ext : Ext) (e : Event) (s : ClientState) : HResult :=
  Except.ok (s, [])

/-- `handle_speech_stopped`: stop capture, record the response start timestamp,
and send an `input_audio_buffer.commit` event. -/
def handle_speech_stopped (ext : Ext) (e : Event) (s : ClientState) : HResult :=
  Except.ok ({s with mic := stop_recording s.mic, response_start_time := some ext.now},
    [OutEvent.inputAudioBufferCommit])

/-- `handle_rate_limits_updated`: clear the response-in-progress flag and set the
microphone recording flag directly (`self.microphone.is_recording = True`),
without touching the receiving flag. -/
def handle_rate_limits_updated (ext : Ext) (e : Event) (s : ClientState) : HResult :=
  Except.ok ({s with response_in_progress := false,
                     mic := {s.mic with is_recording := true}}, [])

/-- The event types with a registered handler (`_register_event_handlers`). -/
def registeredEventTypes : List String :=
  [ServerEvents.RESPONSE_CREATED, ServerEvents.RESPONSE_OUTPUT_ITEM_ADDED,
   ServerEvents.RESPONSE_FUNCTION_CALL_ARGUMENTS_DELTA,
   ServerEvents.RESPONSE_FUNCTION_CALL_ARGUMENTS_DONE,
   ServerEvents.RESPONSE_TEXT_DELTA, ServerEvents.RESPONSE_AUDIO_DELTA,
   ServerEvents.RESPONSE_DONE, ServerEvents.ERROR,
   ServerEvents.INPUT_AUDIO_BUFFER_SPEECH_STARTED,
   ServerEvents.INPUT_AUDIO_BUFFER_SPEECH_STOPPED,
   ServerEvents.RATE_LIMITS_UPDATED]

/-- `RealtimeAPI.handle_event`: look the type up in the registry populated by
`_register_event_handlers` and invoke the handler; an unregistered type is only
logged as an unhandled event. -/
def handle_event (ext : Ext) (e : Event) (s : ClientState) : HResult :=
  if e.type = ServerEvents.RESPONSE_CREATED then handle_response_created ext e s
  else if e.type = ServerEvents.RESPONSE_OUTPUT_ITEM_ADDED then handle_output_item_added ext e s
  else if e.type = ServerEvents.RESPONSE_FUNCTION_CALL_ARGUMENTS_DELTA then
    handle_function_call_arguments_delta ext e s
  else if e.type = ServerEvents.RESPONSE_FUNCTION_CALL_ARGUMENTS_DONE then
    handle_function_call_arguments_done ext e s
  else if e.type = ServerEvents.RESPONSE_TEXT_DELTA then handle_response_text_delta ext e s
  else if e.type = ServerEvents.RESPONSE_AUDIO_DELTA then handle_response_audio_delta ext e s
  else if e.type = ServerEvents.RESPONSE_DONE then handle_response_done ext e s
  else if e.type = ServerEvents.ERROR then handle_error ext e s
  else if e.type = ServerEvents.INPUT_AUDIO_BUFFER_SPEECH_STARTED then
    handle_speech_started ext e s
  else if e.type = ServerEvents.INPUT_AUDIO_BUFFER_SPEECH_STOPPED then
    handle_speech_stopped ext e s
  else if e.type = ServerEvents.RATE_LIMITS_UPDATED then handle_rate_limits_updated ext e s
  else Except.ok (s, [])

/-- The state after handling one event.  A handler that raises mutates nothing:
the only raising handler (`handle_response_audio_delta`) raises before its
single mutation. -/
def stepEvent (ext : Ext) (s : ClientState) (e : Event) : ClientState :=
  match handle_event ext e s with
  | Except.ok (s2, _) => s2
  | Except.error _ => s

/-- The state after handling a sequence of inbound events in arrival order. -/
def runEvents (ext : Ext) (s : ClientState) (es : List Event) : ClientState :=
  es.foldl (stepEvent ext) s

/-- `RealtimeAPI.process_ws_messages`: handle each received message in order;
only `websockets.ConnectionClosed` is caught (modelled by the end of the message
list), so a handler exception propagates out of the loop.  Returns the state and
outbound events up to the failure point and the escaped exception, if any. -/
def process_ws_messages (ext : Ext) (msgs : List Event) (s : ClientState) :
    ClientState × List OutEvent × Option String :=
  match msgs with
  | [] => (s, [], none)
  | e :: rest =>
    match handle_event ext e s with
    | Except.error m => (s, [], some m)
    | Except.ok (s2, outs) =>
      let r := process_ws_messages ext rest s2
      (r.1, outs ++ r.2.1, r.2.2)

/-- How the awaited work of one `run` iteration ended: normal completion of the
message loop, a `websockets.exceptions.ConnectionClosedError` (surfaced by a
send path), or any other exception. -/
inductive ConnEnd where
  | normal
  | connClosedError (msg : String)
  | otherException (msg : String)
deriving DecidableEq, Repr

/-- What `run` does next: retry the `while True` loop after a backoff delay, or
leave the loop. -/
inductive RunStep where
  | reconnect (delay : Nat) (s : ClientState)
  | halt (s : ClientState)
deriving DecidableEq, Repr

/-- The `finally` block of `run`: `stop_recording` then `close`; closing the
stream changes none of the modelled fields. -/
def run_finally (s : ClientState) : ClientState := {s with mic := stop_recording s.mic}

/-- The exception-handling policy of `run`: a `ConnectionClosedError` whose text
contains the keep-alive marker sleeps 1 second and retries; every other ending
leaves the loop.  The `finally` block runs on every path. -/
def run_step (s : ClientState) (endKind : ConnEnd) : RunStep :=
  match endKind with
  | ConnEnd.connClosedError msg =>
    if strContains msg "keepalive ping timeout" then RunStep.reconnect 1 (run_finally s)
    else RunStep.halt (run_finally s)
  | ConnEnd.otherException _ => RunStep.halt (run_finally s)
  | ConnEnd.normal => RunStep.halt (run_finally s)

/-- One `run` iteration driven by the inbound messages alone: when a handler
exception escapes `process_ws_messages`, awaiting the task re-raises it and the
generic `except Exception` branch runs; when the message loop ends normally,
`run` breaks out of the loop. -/
def run_iteration (ext : Ext) (msgs : List Event) (s : ClientState) : RunStep :=
  match (process_ws_messages ext msgs s).2.2 with
  | some m => run_step (process_ws_messages ext msgs s).1 (ConnEnd.otherException m)
  | none => run_step (process_ws_messages ext msgs s).1 ConnEnd.normal

/-- A concrete assignment of the external collaborators, for evaluating the model
on closed inputs. -/
def extTriv : Ext :=
  { b64decode := fun _ => [], parseArgs := fun _ => none,
    call := fun _ _ => Except.ok (PyValue.json "null"), now := 0 }

/-- A `response.audio.delta` event that lacks the `delta` payload key. -/
def audioDeltaNoDelta : Event := mkTypeEvent ServerEvents.RESPONSE_AUDIO_DELTA

/-- A `response.function_call_arguments.delta` event carrying a delta fragment. -/
def deltaEvent (d : String) : Event :=
  {type := ServerEvents.RESPONSE_FUNCTION_CALL_ARGUMENTS_DELTA, delta := some d,
   item := none, error := none}

/-- A `response.output_item.added` event carrying an item. -/
def outputItemAddedEvent (it : Item) : Event :=
  {type := ServerEvents.RESPONSE_OUTPUT_ITEM_ADDED, delta := none, item := some it,
   error := none}

/-- A concrete function-call item, as carried by a `response.output_item.added`
event. -/
def sampleFnCallItem : Item :=
  { itemType := some "function_call", name := some "get_current_time",
    call_id := some "call_1" }

/-- A client state in the middle of an assistant turn, used to exercise the
reconnect path on concrete data. -/
def preReconnectState : ClientState :=
  { mic := {queue := [], is_recording := true, is_receiving := false},
    assistant_reply := "unfinished reply", audio_chunks := [[1, 2]],
    response_in_progress := true, function_call := some sampleFnCallItem,
    function_call_args := "abc", response_start_time := some 5 }

/-- Dispatch of a `response.created` event. -/
theorem handle_event_created (ext : Ext) (e : Event) (s : ClientState)
    (h : e.type = ServerEvents.RESPONSE_CREATED) :
    handle_event ext e s = handle_response_created ext e s := by
  unfold handle_event
  rw [h]
  rfl

/-- Dispatch of a `response.output_item.added` event. -/
theorem handle_event_output_item_added (ext : Ext) (e : Event) (s : ClientState)
    (h : e.type = ServerEvents.RESPONSE_OUTPUT_ITEM_ADDED) :
    handle_event ext e s = handle_output_item_added ext e s := by
  unfold handle_event
  rw [h]
  rfl

/-- Dispatch of a `response.function_call_arguments.delta` event. -/
theorem handle_event_args_delta (ext : Ext) (e : Event) (s : ClientState)
    (h : e.type = ServerEvents.RESPONSE_FUNCTION_CALL_ARGUMENTS_DELTA) :
    handle_event ext e s = handle_function_call_arguments_delta ext e s := by
  unfold handle_event
  rw [h]
  rfl

/-- Dispatch of a `response.function_call_arguments.done` event. -/
theorem handle_event_args_done (ext : Ext) (e : Event) (s : ClientState)
    (h : e.type = ServerEvents.RESPONSE_FUNCTION_CALL_ARGUMENTS_DONE) :
    handle_event ext e s = handle_function_call_arguments_done ext e s := by
  unfold handle_event
  rw [h]
  rfl

/-- Dispatch of a `response.text.delta` event. -/
theorem handle_event_text_delta (ext : Ext) (e : Event) (s : ClientState)
    (h : e.type = ServerEvents.RESPONSE_TEXT_DELTA) :
    handle_event ext e s = handle_response_text_delta ext e s := by
  unfold handle_event
  rw [h]
  rfl

/-- Dispatch of a `response.audio.delta` event. -/
theorem handle_event_audio_delta (ext : Ext) (e : Event) (s : ClientState)
    (h : e.type = ServerEvents.RESPONSE_AUDIO_DELTA) :
    handle_event ext e s = handle_response_audio_delta ext e s := by
  unfold handle_event
  rw [h]
  rfl

/-- Dispatch of a `response.done` event. -/
theorem handle_event_done (ext : Ext) (e : Event) (s : ClientState)
    (h : e.type = ServerEvents.RESPONSE_DONE) :
    handle_event ext e s = handle_response_done ext e s := by
  unfold handle_event
  rw [h]
  rfl

/-- Dispatch of an `error` event. -/
theorem handle_event_error (ext : Ext) (e : Event) (s : ClientState)
    (h : e.type = ServerEvents.ERROR) :
    handle_event ext e s = handle_error ext e s := by
  unfold handle_event
  rw [h]
  rfl

/-- Dispatch of an `input_audio_buffer.speech_started` event. -/
theorem handle_event_speech_started (ext : Ext) (e : Event) (s : ClientState)
    (h : e.type = ServerEvents.INPUT_AUDIO_BUFFER_SPEECH_STARTED) :
    handle_event ext e s = handle_speech_started ext e s := by
  unfold handle_event
  rw [h]
  rfl

/-- Dispatch of an `input_audio_buffer.speech_stopped` event. -/
theorem handle_event_speech_stopped (ext : Ext) (e : Event) (s : ClientState)
    (h : e.type = ServerEvents.INPUT_AUDIO_BUFFER_SPEECH_STOPPED) :
    handle_event ext e s = handle_speech_stopped ext e s := by
  unfold handle_event
  rw [h]
  rfl

/-- Dispatch of a `rate_limits.updated` event. -/
theorem handle_event_rate_limits (ext : Ext) (e : Event) (s : ClientState)
    (h : e.type = ServerEvents.RATE_LIMITS_UPDATED) :
    handle_event ext e s = handle_rate_limits_updated ext e s := by
  unfold handle_event
  rw [h]
  rfl

/-- Dispatch of an unregistered event type: no state change, nothing sent. -/
theorem handle_event_unregistered (ext : Ext) (e : Event) (s : ClientState)
    (h : e.type ∉ registeredEventTypes) :
    handle_event ext e s = Except.ok (s, []) := by
  unfold handle_event
  simp only [registeredEventTypes, List.mem_cons, List.not_mem_nil, or_false,
    not_or] at h
  obtain ⟨h1, h2, h3, h4, h5, h6, h7, h8, h9, h10, h11⟩ := h
  rw [if_neg h1, if_neg h2, if_neg h3, if_neg h4, if_neg h5, if_neg h6, if_neg h7,
    if_neg h8, if_neg h9, if_neg h10, if_neg h11]

/-- A single dispatch step of any event other than `rate_limits.updated` keeps
the two microphone gate flags from being simultaneously true. -/
theorem stepEvent_mic_exclusive (ext : Ext) (s : ClientState) (e : Event)
    (hinv : (s.mic.is_recording && s.mic.is_receiving) = false)
    (hne : e.type ≠ ServerEvents.RATE_LIMITS_UPDATED) :
    ((stepEvent ext s e).mic.is_recording && (stepEvent ext s e).mic.is_receiving) = false := by
  by_cases hr : e.type ∈ registeredEventTypes
  case neg =>
    simpa [stepEvent, handle_event_unregistered ext e s hr] using hinv
  simp only [registeredEventTypes, List.mem_cons, List.not_mem_nil, or_false] at hr
  unfold stepEvent
  rcases hr with h | h | h | h | h | h | h | h | h | h | h
  · rw [handle_event_created ext e s h]
    simp [handle_response_created, start_receiving]
  · rw [handle_event_output_item_added ext e s h]
    unfold handle_output_item_added
    by_cases hit : (e.item.getD Item.empty).itemType = some "function_call" <;>
      simpa [hit] using hinv
  · rw [handle_event_args_delta ext e s h]
    simpa [handle_function_call_arguments_delta] using hinv
  · rw [handle_event_args_done ext e s h]
    unfold handle_function_call_arguments_done
    cases hfc : s.function_call <;> simpa [execute_function_call] using hinv
  · rw [handle_event_text_delta ext e s h]
    simpa [handle_response_text_delta] using hinv
  · rw [handle_event_audio_delta ext e s h]
    unfold handle_response_audio_delta
    cases hd : e.delta <;> simpa using hinv
  · rw [handle_event_done ext e s h]
    simp [handle_response_done, stop_receiving]
  · rw [handle_event_error ext e s h]
    unfold handle_error
    by_cases hb : strContains (errorEventMessage e) "buffer is empty" = true <;>
      by_cases ha : strContains (errorEventMessage e)
        "Conversation already has an active response" = true <;>
      simpa [hb, ha] using hinv
  · rw [handle_event_speech_started ext e s h]
    simpa [handle_speech_started] using hinv
  · rw [handle_event_speech_stopped ext e s h]
    simp [handle_speech_stopped, stop_recording]
  · exact absurd h hne

/-- The gate-flag exclusion is preserved along any inbound event sequence free of
`rate_limits.updated` events. -/
theorem runEvents_mic_exclusive (ext : Ext) (es : List Event) (s : ClientState)
    (hinv : (s.mic.is_recording && s.mic.is_receiving) = false)
    (hno : ∀ e ∈ es, e.type ≠ ServerEvents.RATE_LIMITS_UPDATED) :
    ((runEvents ext s es).mic.is_recording && (runEvents ext s es).mic.is_receiving) = false := by
  induction es generalizing s with
  | nil => simpa [runEvents] using hinv
  | cons e rest ih =>
    simp only [runEvents, List.foldl_cons] at ih ⊢
    exact ih (stepEvent ext s e)
      (stepEvent_mic_exclusive ext s e hinv (hno e (by simp)))
      (fun x hx => hno x (by simp [hx]))

/-- Claim C1, counterexample: starting from the initial state, handling
`response.created` followed by `rate_limits.updated` reaches a state in which
the microphone recording flag and receiving flag are both true, because
`handle_rate_limits_updated` sets `is_recording` directly without clearing
`is_receiving`.  This refutes the mutual-exclusion invariant over all inbound
event sequences. -/
theorem mic_flags_both_true_after_rate_limits :
    (runEvents extTriv initClientState
      [mkTypeEvent ServerEvents.RESPONSE_CREATED,
       mkTypeEvent ServerEvents.RATE_LIMITS_UPDATED]).mic.is_recording = true
    ∧ (runEvents extTriv initClientState
      [mkTypeEvent ServerEvents.RESPONSE_CREATED,
       mkTypeEvent ServerEvents.RATE_LIMITS_UPDATED]).mic.is_receiving = true := by
  decide

/-- Claim C1, amended: in every state reachable by a sequence of inbound events
containing no `rate_limits.updated` event, the recording and receiving flags are
never both true; handling `response.created` always leaves capture suspended
(recording false, receiving true); handling `response.done` always clears the
receiving flag. -/
theorem turn_mutual_exclusion (ext : Ext) (s : ClientState) (es : List Event)
    (hinv : (s.mic.is_recording && s.mic.is_receiving) = false)
    (hno : ∀ e ∈ es, e.type ≠ ServerEvents.RATE_LIMITS_UPDATED) :
    ((runEvents ext s es).mic.is_recording && (runEvents ext s es).mic.is_receiving) = false
    ∧ (∀ e, e.type = ServerEvents.RESPONSE_CREATED →
        (stepEvent ext s e).mic.is_recording = false
        ∧ (stepEvent ext s e).mic.is_receiving = true)
    ∧ (∀ e, e.type = ServerEvents.RESPONSE_DONE →
        (stepEvent ext s e).mic.is_receiving = false) := by
  refine ⟨runEvents_mic_exclusive ext es s hinv hno, ?_, ?_⟩
  · intro e he
    unfold stepEvent handle_event
    rw [he]
    exact ⟨rfl, rfl⟩
  · intro e he
    unfold stepEvent handle_event
    rw [he]
    rfl

/-- Witness for `turn_mutual_exclusion` at a concrete input. -/
theorem turn_mutual_exclusion_witness :
    ((initClientState.mic.is_recording && initClientState.mic.is_receiving) = false)
    ∧ (∀ e ∈ [mkTypeEvent ServerEvents.RESPONSE_CREATED],
        e.type ≠ ServerEvents.RATE_LIMITS_UPDATED)
    ∧ (((runEvents extTriv initClientState
          [mkTypeEvent ServerEvents.RESPONSE_CREATED]).mic.is_recording &&
        (runEvents extTriv initClientState
          [mkTypeEvent ServerEvents.RESPONSE_CREATED]).mic.is_receiving) = false) :=
  ⟨by decide, by decide,
   (turn_mutual_exclusion extTriv initClientState
      [mkTypeEvent ServerEvents.RESPONSE_CREATED] (by decide) (by decide)).1⟩

/-- Claim C2, counterexample: the registered `response.audio.delta` handler
raises on an event lacking the `delta` key; the dispatch boundary
(`handle_event`) does not catch it, and the run loop ends the session
(`RunStep.halt`) instead of keeping it alive. -/
theorem handler_failure_terminates_session :
    handle_event extTriv audioDeltaNoDelta initClientState
      = Except.error "KeyError: delta"
    ∧ run_iteration extTriv [audioDeltaNoDelta] initClientState
      = RunStep.halt (run_finally initClientState) := by
  decide

/-- Claim C2, amended: a handler failure escapes the dispatch boundary and the
message loop; `run` catches it in its generic exception branch, logs it, and
terminates the session (halts the run loop with no reconnect), running the
cleanup block on the way out. -/
theorem handler_failure_halts_run (ext : Ext) (msgs : List Event) (s : ClientState)
    (m : String) (h : (process_ws_messages ext msgs s).2.2 = some m) :
    run_iteration ext msgs s
      = RunStep.halt (run_finally (process_ws_messages ext msgs s).1) := by
  unfold run_iteration
  rw [h]
  rfl

/-- Witness for `handler_failure_halts_run` at a concrete input. -/
theorem handler_failure_halts_run_witness :
    (process_ws_messages extTriv [audioDeltaNoDelta] initClientState).2.2
      = some "KeyError: delta"
    ∧ run_iteration extTriv [audioDeltaNoDelta] initClientState
      = RunStep.halt
          (run_finally (process_ws_messages extTriv [audioDeltaNoDelta] initClientState).1) :=
  ⟨by decide,
   handler_failure_halts_run extTriv [audioDeltaNoDelta] initClientState
     "KeyError: delta" (by decide)⟩

/-- Claim C3, counterexample: a keep-alive-timeout closure from a state with
in-flight turn data reconnects after the fixed delay, but the state on the new
connection keeps the assistant reply, audio chunks, response-in-progress flag,
pending function call, its argument string and the response start timestamp:
the transient accumulators are not reset to their initial values. -/
theorem reconnect_keeps_transient_state :
    run_step preReconnectState (ConnEnd.connClosedError "keepalive ping timeout")
      = RunStep.reconnect 1 (run_finally preReconnectState)
    ∧ (run_finally preReconnectState).assistant_reply = "unfinished reply"
    ∧ (run_finally preReconnectState).audio_chunks = [[1, 2]]
    ∧ (run_finally preReconnectState).response_in_progress = true
    ∧ (run_finally preReconnectState).function_call_args = "abc"
    ∧ (run_finally preReconnectState).response_start_time = some 5
    ∧ (run_finally preReconnectState).function_call ≠ none := by
  decide

/-- Claim C3, amended: when the connection closes with a failure classified as a
keep-alive ping timeout, the client reconnects after a fixed backoff of 1 time
unit; the cleanup block clears the microphone recording flag and closes the
device, and every transient accumulator keeps its previous value on the new
connection (none is reset). -/
theorem keepalive_reconnect (s : ClientState) (msg : String)
    (h : strContains msg "keepalive ping timeout" = true) :
    run_step s (ConnEnd.connClosedError msg) = RunStep.reconnect 1 (run_finally s)
    ∧ (run_finally s).assistant_reply = s.assistant_reply
    ∧ (run_finally s).audio_chunks = s.audio_chunks
    ∧ (run_finally s).response_in_progress = s.response_in_progress
    ∧ (run_finally s).function_call = s.function_call
    ∧ (run_finally s).function_call_args = s.function_call_args
    ∧ (run_finally s).response_start_time = s.response_start_time
    ∧ (run_finally s).mic.is_recording = false := by
  refine ⟨?_, rfl, rfl, rfl, rfl, rfl, rfl, rfl⟩
  simp [run_step, h]

/-- Witness for `keepalive_reconnect` at a concrete input. -/
theorem keepalive_reconnect_witness :
    strContains "keepalive ping timeout" "keepalive ping timeout" = true
    ∧ run_step initClientState (ConnEnd.connClosedError "keepalive ping timeout")
        = RunStep.reconnect 1 (run_finally initClientState) :=
  ⟨by decide,
   (keepalive_reconnect initClientState "keepalive ping timeout" (by decide)).1⟩

/-- Claim C4: function-call execution is total (it returns a result instead of
propagating an exception, by construction of `execute_function_call`); a name
absent from the static function map yields the structured not-found error and
invokes nothing (the outcome is independent of the behaviour of every mapped
function); an invocation that raises yields the structured error carrying the
failure description; a successful result is passed through unchanged. -/
theorem execute_function_call_contract (ext : Ext) (function_name : Option String)
    (cid : Option String) (args : Args) (s : ClientState) :
    (∀ n, function_name = some n → n ∉ function_map_names →
        (execute_function_call ext function_name cid args s).2 =
          [OutEvent.itemCreateMessage "assistant" (notFoundMsg n),
           OutEvent.itemCreateFunctionOutput cid (PyValue.errDict (notFoundMsg n)),
           OutEvent.responseCreate]
        ∧ ∀ c₁ c₂ : String → Args → Except String PyValue,
            execute_function_call {ext with call := c₁} function_name cid args s
              = execute_function_call {ext with call := c₂} function_name cid args s)
    ∧ (function_name = none →
        (execute_function_call ext function_name cid args s).2 =
          [OutEvent.itemCreateMessage "assistant" (notFoundMsg "None"),
           OutEvent.itemCreateFunctionOutput cid (PyValue.errDict (notFoundMsg "None")),
           OutEvent.responseCreate])
    ∧ (∀ n e, function_name = some n → n ∈ function_map_names →
        ext.call n args = Except.error e →
        (execute_function_call ext function_name cid args s).2 =
          [OutEvent.itemCreateMessage "assistant" (execErrorMsg n e),
           OutEvent.itemCreateFunctionOutput cid (PyValue.errDict (execErrorMsg n e)),
           OutEvent.responseCreate])
    ∧ (∀ n v, function_name = some n → n ∈ function_map_names →
        ext.call n args = Except.ok v →
        (execute_function_call ext function_name cid args s).2 =
          [OutEvent.itemCreateFunctionOutput cid v, OutEvent.responseCreate]) := by
  refine ⟨?_, ?_, ?_, ?_⟩
  · rintro n rfl hn
    constructor
    · simp [execute_function_call, hn]
    · intro c₁ c₂
      simp [execute_function_call, hn]
  · rintro rfl
    simp [execute_function_call]
  · rintro n e rfl hn hc
    simp [execute_function_call, hn, hc]
  · rintro n v rfl hn hc
    simp [execute_function_call, hn, hc]

/-- Witness for `execute_function_call_contract`: an unknown name on concrete
data yields the not-found error result. -/
theorem execute_function_call_contract_witness :
    (some "set_alarm" = some "set_alarm")
    ∧ "set_alarm" ∉ function_map_names
    ∧ (execute_function_call extTriv (some "set_alarm") (some "call_9") [] initClientState).2 =
        [OutEvent.itemCreateMessage "assistant" (notFoundMsg "set_alarm"),
         OutEvent.itemCreateFunctionOutput (some "call_9")
           (PyValue.errDict (notFoundMsg "set_alarm")),
         OutEvent.responseCreate] :=
  ⟨rfl, by decide,
   ((execute_function_call_contract extTriv (some "set_alarm") (some "call_9") []
       initClientState).1 "set_alarm" rfl (by decide)).1⟩

/-- Appending to the argument accumulator: handling a sequence of
`response.function_call_arguments.delta` events folds the deltas onto the
accumulated string in arrival order, and never touches the pending call. -/
theorem runEvents_deltas (ext : Ext) (ds : List String) (s : ClientState) :
    (runEvents ext s (ds.map deltaEvent)).function_call_args
        = ds.foldl (fun a d => a ++ d) s.function_call_args
    ∧ (runEvents ext s (ds.map deltaEvent)).function_call = s.function_call := by
  induction ds generalizing s with
  | nil => exact ⟨rfl, rfl⟩
  | cons d ds ih =>
    have hstep : stepEvent ext s (deltaEvent d)
        = {s with function_call_args := s.function_call_args ++ d} := rfl
    have h2 := ih {s with function_call_args := s.function_call_args ++ d}
    simp only [runEvents, List.map_cons, List.foldl_cons] at h2 ⊢
    rw [hstep]
    exact h2

/-- Claim C5: after an output-item-added event carrying a function-call item,
handling deltas d1..dn accumulates exactly their ordered concatenation (and the
pending call is untouched), so that is the string the arguments-done handler
reads. -/
theorem args_accumulate_exact (ext : Ext) (s : ClientState) (it : Item)
    (ds : List String) (hit : it.itemType = some "function_call") :
    (runEvents ext s (outputItemAddedEvent it :: ds.map deltaEvent)).function_call_args
        = ds.foldl (fun a d => a ++ d) ""
    ∧ (runEvents ext s (outputItemAddedEvent it :: ds.map deltaEvent)).function_call
        = some it := by
  have hstep : stepEvent ext s (outputItemAddedEvent it)
      = {s with function_call := some it, function_call_args := ""} := by
    unfold stepEvent
    rw [handle_event_output_item_added ext (outputItemAddedEvent it) s rfl]
    unfold handle_output_item_added
    simp [outputItemAddedEvent, hit]
  have h2 := runEvents_deltas ext ds {s with function_call := some it, function_call_args := ""}
  simp only [runEvents, List.foldl_cons] at h2 ⊢
  rw [hstep]
  exact h2

/-- Witness for `args_accumulate_exact` at a concrete input. -/
theorem args_accumulate_exact_witness :
    sampleFnCallItem.itemType = some "function_call"
    ∧ (runEvents extTriv initClientState
        (outputItemAddedEvent sampleFnCallItem
          :: (["arg one ", "arg two"].map deltaEvent))).function_call_args
        = ["arg one ", "arg two"].foldl (fun a d => a ++ d) "" :=
  ⟨rfl,
   (args_accumulate_exact extTriv initClientState sampleFnCallItem
      ["arg one ", "arg two"] rfl).1⟩

/-- Claim C6: with a live pending function call, the arguments-done handler
invokes the executor on the parsed accumulated arguments (empty record when the
text is empty or fails to parse), which clears the pending call and its argument
string and sends the function-call-output item carrying the call id followed by
an explicit response-create event. -/
theorem args_done_executes_and_clears (ext : Ext) (e : Event) (s : ClientState)
    (fc : Item) (h : s.function_call = some fc) :
    handle_function_call_arguments_done ext e s
      = Except.ok (execute_function_call ext fc.name fc.call_id
          (parsedArgs ext s.function_call_args) s)
    ∧ parsedArgs ext s.function_call_args
        = (if s.function_call_args = "" then []
           else (ext.parseArgs s.function_call_args).getD [])
    ∧ (execute_function_call ext fc.name fc.call_id
        (parsedArgs ext s.function_call_args) s).1.function_call = none
    ∧ (execute_function_call ext fc.name fc.call_id
        (parsedArgs ext s.function_call_args) s).1.function_call_args = ""
    ∧ ∃ pre v, (execute_function_call ext fc.name fc.call_id
        (parsedArgs ext s.function_call_args) s).2
        = pre ++ [OutEvent.itemCreateFunctionOutput fc.call_id v,
                  OutEvent.responseCreate] := by
  refine ⟨?_, rfl, rfl, rfl, ?_⟩
  · unfold handle_function_call_arguments_done
    rw [h]
  · exact ⟨_, _, rfl⟩

/-- Witness for `args_done_executes_and_clears` at a concrete input. -/
theorem args_done_executes_and_clears_witness :
    preReconnectState.function_call = some sampleFnCallItem
    ∧ handle_function_call_arguments_done extTriv (mkTypeEvent
          ServerEvents.RESPONSE_FUNCTION_CALL_ARGUMENTS_DONE) preReconnectState
      = Except.ok (execute_function_call extTriv sampleFnCallItem.name
          sampleFnCallItem.call_id (parsedArgs extTriv "abc") preReconnectState) :=
  ⟨rfl,
   (args_done_executes_and_clears extTriv
      (mkTypeEvent ServerEvents.RESPONSE_FUNCTION_CALL_ARGUMENTS_DONE)
      preReconnectState sampleFnCallItem rfl).1⟩

/-- Splitting a microphone trace at any point. -/
theorem runMicOps_append (m : MicState) (ops1 ops2 : List MicOp) :
    runMicOps m (ops1 ++ ops2) = ops2.foldl micStep (runMicOps m ops1) := by
  unfold runMicOps
  exact List.foldl_append micStep (m, []) ops1 ops2

/-- Pushing frames while capture is enabled enqueues each of them in order. -/
theorem pushes_enqueue (frames : List (List Nat)) (q : List (List Nat))
    (outs : List (Option (List Nat))) :
    (frames.map MicOp.push).foldl micStep
        ({queue := q, is_recording := true, is_receiving := false}, outs)
      = ({queue := q ++ frames, is_recording := true, is_receiving := false}, outs) := by
  induction frames generalizing q with
  | nil => simp
  | cons f fs ih =>
    simp only [List.map_cons, List.foldl_cons, micStep, callback]
    simpa using ih (q ++ [f])

/-- Claim C7: frames pushed while recording is on and receiving is off are
returned by the next drain as their exact concatenation in arrival order, and a
drain with no new frames returns the no-data sentinel; a frame pushed at any
point of any trace in which receiving is on is discarded: the whole rest of the
trace, including every later drain result, is as if the push never happened. -/
theorem mic_capture_spec :
    (∀ frames : List (List Nat), frames.flatten ≠ [] →
      (runMicOps captureMic (frames.map MicOp.push ++ [MicOp.drain, MicOp.drain])).2
        = [some frames.flatten, none])
    ∧ (∀ (m : MicState) (ops1 ops2 : List MicOp) (f : List Nat),
        (runMicOps m ops1).1.is_receiving = true →
        runMicOps m (ops1 ++ MicOp.push f :: ops2) = runMicOps m (ops1 ++ ops2)) := by
  constructor
  · intro frames hne
    rw [runMicOps_append]
    have h1 : runMicOps captureMic (frames.map MicOp.push)
        = ({queue := frames, is_recording := true, is_receiving := false}, []) := by
      unfold runMicOps captureMic
      simpa using pushes_enqueue frames [] []
    rw [h1]
    simp [micStep, get_audio_data, hne]
  · intro m ops1 ops2 f hrecv
    rw [runMicOps_append, runMicOps_append]
    rcases hmo : runMicOps m ops1 with ⟨st, outs⟩
    rw [hmo] at hrecv
    have hrecv2 : st.is_receiving = true := hrecv
    simp only [List.foldl_cons, micStep, callback]
    simp [hrecv2]

/-- Witness for `mic_capture_spec` at concrete inputs. -/
theorem mic_capture_spec_witness :
    ([[7, 8], [9]] : List (List Nat)).flatten ≠ []
    ∧ (runMicOps captureMic
        (([[7, 8], [9]] : List (List Nat)).map MicOp.push
          ++ [MicOp.drain, MicOp.drain])).2 = [some [7, 8, 9], none] :=
  ⟨by decide, mic_capture_spec.1 [[7, 8], [9]] (by decide)⟩

/-- Claim C8: the error handler never raises, sends nothing, and mutates no state
field except `response_in_progress`, which it sets to true exactly when the
message text contains the active-response conflict and the benign
`buffer is empty` branch was not taken first; in the benign branch and the
unhandled branch the state is returned unchanged. -/
theorem handle_error_effects (ext : Ext) (e : Event) (s : ClientState) :
    ∃ s2, handle_error ext e s = Except.ok (s2, [])
      ∧ s2.mic = s.mic
      ∧ s2.assistant_reply = s.assistant_reply
      ∧ s2.audio_chunks = s.audio_chunks
      ∧ s2.function_call = s.function_call
      ∧ s2.function_call_args = s.function_call_args
      ∧ s2.response_start_time = s.response_start_time
      ∧ s2.response_in_progress =
          (if strContains (errorEventMessage e) "buffer is empty" then
            s.response_in_progress
           else if strContains (errorEventMessage e)
              "Conversation already has an active response" then true
           else s.response_in_progress) := by
  unfold handle_error
  by_cases hb : strContains (errorEventMessage e) "buffer is empty" = true
  · exact ⟨s, by simp [hb], rfl, rfl, rfl, rfl, rfl, rfl, by simp [hb]⟩
  · by_cases ha : strContains (errorEventMessage e)
        "Conversation already has an active response" = true
    · exact ⟨{s with response_in_progress := true}, by simp [hb, ha],
        rfl, rfl, rfl, rfl, rfl, rfl, by simp [hb, ha]⟩
    · exact ⟨s, by simp [hb, ha], rfl, rfl, rfl, rfl, rfl, rfl, by simp [hb, ha]⟩

/-- Claim C9: handling an arguments-done event with no live pending function call
is a complete no-op: the state is returned unchanged, nothing is sent, and no
function is executed (the result does not depend on the external functions at
all). -/
theorem args_done_noop_without_pending (ext : Ext) (e : Event) (s : ClientState)
    (h : s.function_call = none) :
    handle_function_call_arguments_done ext e s = Except.ok (s, []) := by
  unfold handle_function_call_arguments_done
  rw [h]

/-- Witness for `args_done_noop_without_pending` at a concrete input. -/
theorem args_done_noop_without_pending_witness :
    initClientState.function_call = none
    ∧ handle_function_call_arguments_done extTriv
        (mkTypeEvent ServerEvents.RESPONSE_FUNCTION_CALL_ARGUMENTS_DONE)
        initClientState = Except.ok (initClientState, []) :=
  ⟨rfl,
   args_done_noop_without_pending extTriv
     (mkTypeEvent ServerEvents.RESPONSE_FUNCTION_CALL_ARGUMENTS_DONE)
     initClientState rfl⟩

/-- Claim C10, counterexample: `response.audio.delta` has a registered handler,
and handling such an event without the `delta` payload key raises (the handler
indexes `event["delta"]` directly instead of using a default). -/
theorem audio_delta_missing_field_raises :
    audioDeltaNoDelta.type ∈ registeredEventTypes
    ∧ handle_event extTriv audioDeltaNoDelta initClientState
        = Except.error "KeyError: delta" := by
  decide

/-- Claim C10, amended: every registered handler except the one for
`response.audio.delta` treats missing payload fields as empty defaults and
completes without raising, on every event of its type and every state. -/
theorem handlers_tolerate_missing_fields (ext : Ext) (e : Event) (s : ClientState)
    (hreg : e.type ∈ registeredEventTypes)
    (hne : e.type ≠ ServerEvents.RESPONSE_AUDIO_DELTA) :
    ∃ p, handle_event ext e s = Except.ok p := by
  simp only [registeredEventTypes, List.mem_cons, List.not_mem_nil, or_false] at hreg
  rcases hreg with h | h | h | h | h | h | h | h | h | h | h
  · exact ⟨_, handle_event_created ext e s h⟩
  · rw [handle_event_output_item_added ext e s h]
    unfold handle_output_item_added
    by_cases hit : (e.item.getD Item.empty).itemType = some "function_call" <;>
      simp [hit]
  · exact ⟨_, handle_event_args_delta ext e s h⟩
  · rw [handle_event_args_done ext e s h]
    unfold handle_function_call_arguments_done
    cases s.function_call <;> simp
  · exact ⟨_, handle_event_text_delta ext e s h⟩
  · exact absurd h hne
  · exact ⟨_, handle_event_done ext e s h⟩
  · rw [handle_event_error ext e s h]
    unfold handle_error
    by_cases hb : strContains (errorEventMessage e) "buffer is empty" = true <;>
      by_cases ha : strContains (errorEventMessage e)
        "Conversation already has an active response" = true <;>
      simp [hb, ha]
  · exact ⟨_, handle_event_speech_started ext e s h⟩
  · exact ⟨_, handle_event_speech_stopped ext e s h⟩
  · exact ⟨_, handle_event_rate_limits ext e s h⟩

/-- Witness for `handlers_tolerate_missing_fields` at a concrete input: an
`error` event with no payload at all is handled without raising. -/
theorem handlers_tolerate_missing_fields_witness :
    (mkTypeEvent ServerEvents.ERROR).type ∈ registeredEventTypes
    ∧ (mkTypeEvent ServerEvents.ERROR).type ≠ ServerEvents.RESPONSE_AUDIO_DELTA
    ∧ ∃ p, handle_event extTriv (mkTypeEvent ServerEvents.ERROR) initClientState
        = Except.ok p :=
  ⟨by decide, by decide,
   handlers_tolerate_missing_fields extTriv (mkTypeEvent ServerEvents.ERROR)
     initClientState (by decide) (by decide)⟩

end Jarvis
